import Mathlib

/-
Verification of the voice-monitor core of this repository: the
autocorrelation pitch detector (pitch-detector.js), the exponential
smoothing step of the audio processor (src/audio/audio-processor.js),
and the drift-corrected metronome timer (src/utils/metronome-timer.js)
together with its UI caller (src/components/visual-metronome.js).

Conventions of the embedding:
* JS numbers are modelled as rationals; every property checked here is
  about exact arithmetic on values the floating-point code also
  represents exactly or approximates.
* JS null (and the sentinel -1 that autoCorrelate returns for no
  pitch) is modelled with Option.
* An audio buffer (a Float32Array) is modelled as a length SIZE
  together with a function from indices to rationals.
-/

namespace PitchDetector

/-- Similarity score that the inner loop of autoCorrelate assigns to one
candidate lag (pitch-detector.js, lines 35-41):
correlation = 1 - (sum over i < SIZE/2 of |buffer[i] - buffer[i+offset]|) / (SIZE/2). -/
def correlationAt (buffer : ℕ → ℚ) (SIZE offset : ℕ) : ℚ :=
  1 - (∑ i ∈ Finset.range (SIZE / 2), |buffer i - buffer (i + offset)|) /
      ((SIZE / 2 : ℕ) : ℚ)

/-- One iteration of the offset scan (pitch-detector.js, lines 34-52).
The scan state is (bestOffset, bestCorrelation, lastCorrelation), where the
JS sentinel bestOffset = -1 is modelled as none.  A lag qualifies when its
correlation exceeds 0.9 and exceeds the previous correlation; among
qualifying lags the one with the largest increase over the previous
correlation is kept. -/
def scanStep (buffer : ℕ → ℚ) (SIZE : ℕ) (st : Option ℕ × ℚ × ℚ) (offset : ℕ) :
    Option ℕ × ℚ × ℚ :=
  if 9/10 < correlationAt buffer SIZE offset ∧ st.2.2 < correlationAt buffer SIZE offset then
    if st.2.1 < correlationAt buffer SIZE offset - st.2.2 then
      (some offset, correlationAt buffer SIZE offset - st.2.2, correlationAt buffer SIZE offset)
    else (st.1, st.2.1, correlationAt buffer SIZE offset)
  else (st.1, st.2.1, correlationAt buffer SIZE offset)

/-- The offset scan of autoCorrelate: offsets 1, ..., SIZE/2 - 1 in order,
starting from bestOffset = -1 (none), bestCorrelation = 0,
lastCorrelation = 1. -/
def findBestOffset (buffer : ℕ → ℚ) (SIZE : ℕ) : Option ℕ :=
  ((List.range' 1 (SIZE / 2 - 1)).foldl (scanStep buffer SIZE) (none, 0, 1)).1

/-- autoCorrelate (pitch-detector.js, lines 15-58).  The JS code computes
rms = sqrt(meanSquare) and tests rms < 0.01; both sides are nonnegative and
squaring is monotone, so this is the same test as meanSquare < 1/10000,
which keeps the embedding inside ℚ.  For SIZE = 0 the JS code divides 0 by
0 giving NaN, the NaN comparison is false and the empty scan still leaves
bestOffset = -1, so the result is -1 (none) on that path as well, matching
the branch taken here under the convention 0 / 0 = 0. -/
def autoCorrelate (sampleRate : ℚ) (buffer : ℕ → ℚ) (SIZE : ℕ) : Option ℚ :=
  if (∑ i ∈ Finset.range SIZE, buffer i * buffer i) / (SIZE : ℚ) < 1/10000 then none
  else
    match findBestOffset buffer SIZE with
    | none => none
    | some bestOffset => some (sampleRate / (bestOffset : ℚ))

/-- detectPitch (pitch-detector.js, lines 65-74): keep only frequencies
that are positive and within [60, 1000]; the sentinel -1 (here none) is
already excluded by the positivity test. -/
def detectPitch (sampleRate : ℚ) (buffer : ℕ → ℚ) (SIZE : ℕ) : Option ℚ :=
  match autoCorrelate sampleRate buffer SIZE with
  | none => none
  | some frequency =>
      if 0 < frequency ∧ 60 ≤ frequency ∧ frequency ≤ 1000 then some frequency
      else none

end PitchDetector

/-- Alternating full-scale buffer 1, -1, 1, -1, ... — a legitimate audio
signal, every sample inside [-1, 1]. -/
def altBuffer : ℕ → ℚ := fun i => if i % 2 = 0 then 1 else -1

/-- Alternating buffer of amplitude 1/10: a period-2 tone loud enough to
pass the noise gate. -/
def toneBuffer : ℕ → ℚ := fun i => if i % 2 = 0 then 1/10 else -(1/10)

/-- The all-zero (silent) buffer. -/
def zeroBuffer : ℕ → ℚ := fun _ => 0

/-- If the fold implementing the offset scan ends with bestOffset = some o,
then o was already the best offset initially or o is one of the scanned
offsets. -/
lemma foldl_scanStep_mem (buffer : ℕ → ℚ) (SIZE : ℕ) (l : List ℕ)
    (st : Option ℕ × ℚ × ℚ) (o : ℕ)
    (h : (l.foldl (PitchDetector.scanStep buffer SIZE) st).1 = some o) :
    st.1 = some o ∨ o ∈ l := by
  induction l generalizing st with
  | nil => exact Or.inl h
  | cons a l ih =>
      rw [List.foldl_cons] at h
      rcases ih _ h with h1 | h1
      · unfold PitchDetector.scanStep at h1
        split_ifs at h1
        · have h2 : a = o := by injection h1
          subst h2
          exact Or.inr (List.mem_cons_self a l)
        · exact Or.inl h1
        · exact Or.inl h1
      · exact Or.inr (List.mem_cons_of_mem _ h1)

/-- Claim C2 (corrected): the claimed interval [0,1] is wrong, but for a
buffer whose samples all lie in the full-scale range [-1, 1] the
normalized similarity score of every candidate lag from 1 up to SIZE/2
lies in [-1, 1]: it is at most 1 because the summed absolute differences
are nonnegative, and at least -1 because each absolute difference is at
most 2. -/
theorem correlation_score_bounds (buffer : ℕ → ℚ) (SIZE offset : ℕ)
    (hb : ∀ i, i < SIZE → |buffer i| ≤ 1)
    (h1 : 1 ≤ offset) (h2 : offset ≤ SIZE / 2) :
    -1 ≤ PitchDetector.correlationAt buffer SIZE offset ∧
      PitchDetector.correlationAt buffer SIZE offset ≤ 1 := by
  have hM : 0 < SIZE / 2 := lt_of_lt_of_le h1 h2
  have hMq : (0 : ℚ) < ((SIZE / 2 : ℕ) : ℚ) := by exact_mod_cast hM
  have hsum0 : 0 ≤ ∑ i ∈ Finset.range (SIZE / 2), |buffer i - buffer (i + offset)| :=
    Finset.sum_nonneg fun i _ => abs_nonneg _
  have hterm : ∀ i ∈ Finset.range (SIZE / 2), |buffer i - buffer (i + offset)| ≤ 2 := by
    intro i hi
    rw [Finset.mem_range] at hi
    have hiN : i < SIZE := by omega
    have hioN : i + offset < SIZE := by omega
    calc |buffer i - buffer (i + offset)| ≤ |buffer i| + |buffer (i + offset)| :=
          abs_sub _ _
      _ ≤ 1 + 1 := add_le_add (hb i hiN) (hb _ hioN)
      _ = 2 := by norm_num
  have hsum2 : (∑ i ∈ Finset.range (SIZE / 2), |buffer i - buffer (i + offset)|) ≤
      ((SIZE / 2 : ℕ) : ℚ) * 2 := by
    have := Finset.sum_le_card_nsmul (Finset.range (SIZE / 2))
      (fun i => |buffer i - buffer (i + offset)|) 2 hterm
    simpa [Finset.card_range, nsmul_eq_mul] using this
  have hdiv2 : (∑ i ∈ Finset.range (SIZE / 2), |buffer i - buffer (i + offset)|) /
      ((SIZE / 2 : ℕ) : ℚ) ≤ 2 := by
    rw [div_le_iff₀ hMq]
    linarith
  have hdiv0 : 0 ≤ (∑ i ∈ Finset.range (SIZE / 2), |buffer i - buffer (i + offset)|) /
      ((SIZE / 2 : ℕ) : ℚ) := div_nonneg hsum0 hMq.le
  unfold PitchDetector.correlationAt
  constructor <;> linarith

/-- Counterexample to claim C2 as stated: for the alternating full-scale
buffer of length 4 (samples all inside [-1,1]) and lag 1, the similarity
score is 1 - (2 + 2)/2 = -1, outside [0, 1]. -/
theorem correlation_score_below_zero :
    ¬ (0 ≤ PitchDetector.correlationAt altBuffer 4 1 ∧
        PitchDetector.correlationAt altBuffer 4 1 ≤ 1) := by
  norm_num [PitchDetector.correlationAt, altBuffer, Finset.sum_range_succ,
    abs_of_nonneg, abs_of_nonpos]

/-- Witness for C2: the similarity bound applied to the zero buffer of
length 2 at lag 1. -/
theorem correlation_score_bounds_witness :
    -1 ≤ PitchDetector.correlationAt zeroBuffer 2 1 ∧
      PitchDetector.correlationAt zeroBuffer 2 1 ≤ 1 :=
  correlation_score_bounds zeroBuffer 2 1
    (fun i _ => by simp [zeroBuffer]) (by norm_num) (by norm_num)

/-- Claim C7: a buffer whose root-mean-square amplitude is below the
silence threshold 0.01 (equivalently, whose mean square is below 1/10000)
makes autoCorrelate return no pitch at once. -/
theorem silent_buffer_no_pitch (sampleRate : ℚ) (buffer : ℕ → ℚ) (SIZE : ℕ)
    (h : (∑ i ∈ Finset.range SIZE, buffer i * buffer i) / (SIZE : ℚ) < 1/10000) :
    PitchDetector.autoCorrelate sampleRate buffer SIZE = none := by
  unfold PitchDetector.autoCorrelate
  rw [if_pos h]

/-- Witness for C7: the zero buffer of length 4 is below the silence
threshold and yields no pitch. -/
theorem silent_buffer_no_pitch_witness :
    ((∑ i ∈ Finset.range 4, zeroBuffer i * zeroBuffer i) / ((4 : ℕ) : ℚ) < 1/10000) ∧
      PitchDetector.autoCorrelate 44100 zeroBuffer 4 = none :=
  ⟨by norm_num [zeroBuffer, Finset.sum_range_succ],
   silent_buffer_no_pitch 44100 zeroBuffer 4
     (by norm_num [zeroBuffer, Finset.sum_range_succ])⟩

/-- Claim C4: whenever detectPitch reports a frequency it lies within the
plausible vocal range [60, 1000]; and whatever frequency the correlation
step produced, if it falls outside that range detectPitch reports none. -/
theorem detectPitch_range_check (sampleRate : ℚ) (buffer : ℕ → ℚ) (SIZE : ℕ) :
    (∀ f, PitchDetector.detectPitch sampleRate buffer SIZE = some f →
      60 ≤ f ∧ f ≤ 1000) ∧
    (∀ f, PitchDetector.autoCorrelate sampleRate buffer SIZE = some f →
      f < 60 ∨ 1000 < f → PitchDetector.detectPitch sampleRate buffer SIZE = none) := by
  constructor
  · intro f hf
    unfold PitchDetector.detectPitch at hf
    rcases h : PitchDetector.autoCorrelate sampleRate buffer SIZE with _ | g
    · rw [h] at hf
      exact absurd hf (by simp)
    · rw [h] at hf
      dsimp only at hf
      split_ifs at hf with hc
      cases hf
      exact ⟨hc.2.1, hc.2.2⟩
  · intro f hf hout
    unfold PitchDetector.detectPitch
    rw [hf]
    have hc : ¬ (0 < f ∧ 60 ≤ f ∧ f ≤ 1000) := by
      rintro ⟨h0, h60, h1000⟩
      rcases hout with h | h <;> linarith
    dsimp only
    rw [if_neg hc]

/-- On the period-2 tone of length 8 the correlation step locks onto lag
2 and reports half the sample rate. -/
lemma toneBuffer_autoCorrelate (sampleRate : ℚ) :
    PitchDetector.autoCorrelate sampleRate toneBuffer 8 = some (sampleRate / 2) := by
  have hb : PitchDetector.findBestOffset toneBuffer 8 = some 2 := by
    norm_num [PitchDetector.findBestOffset, PitchDetector.scanStep,
      PitchDetector.correlationAt, toneBuffer, Finset.sum_range_succ,
      abs_of_nonneg, abs_of_nonpos, List.range', List.foldl]
  unfold PitchDetector.autoCorrelate
  rw [if_neg (by norm_num [toneBuffer, Finset.sum_range_succ]), hb]
  norm_num

/-- Witness for C4: the period-2 tone of length 8 detects 500 Hz at sample
rate 1000 (inside the range), while at sample rate 100 the correlation
step yields 50 Hz, which detectPitch rejects as none. -/
theorem detectPitch_range_check_witness :
    (60 ≤ (500 : ℚ) ∧ (500 : ℚ) ≤ 1000) ∧
      PitchDetector.detectPitch 100 toneBuffer 8 = none :=
  ⟨(detectPitch_range_check 1000 toneBuffer 8).1 500
     (by unfold PitchDetector.detectPitch; rw [toneBuffer_autoCorrelate]; norm_num),
   (detectPitch_range_check 100 toneBuffer 8).2 50
     (by rw [toneBuffer_autoCorrelate]; norm_num)
     (Or.inl (by norm_num))⟩

/-- Claim C9: whenever autoCorrelate returns a frequency, that frequency
came from a chosen lag strictly between 0 and SIZE/2, namely
1 ≤ bestOffset ≤ SIZE/2 - 1, so the division sampleRate / bestOffset is
never a division by zero; and a degenerate single-sample buffer always
yields no pitch. -/
theorem frequency_from_positive_lag (sampleRate : ℚ) (buffer : ℕ → ℚ) (SIZE : ℕ) :
    (∀ f, PitchDetector.autoCorrelate sampleRate buffer SIZE = some f →
      ∃ o : ℕ, PitchDetector.findBestOffset buffer SIZE = some o ∧
        1 ≤ o ∧ o ≤ SIZE / 2 - 1 ∧ f = sampleRate / (o : ℚ)) ∧
    PitchDetector.autoCorrelate sampleRate buffer 1 = none := by
  constructor
  · intro f hf
    unfold PitchDetector.autoCorrelate at hf
    by_cases hs : (∑ i ∈ Finset.range SIZE, buffer i * buffer i) / (SIZE : ℚ) < 1/10000
    · rw [if_pos hs] at hf
      cases hf
    · rw [if_neg hs] at hf
      rcases hm : PitchDetector.findBestOffset buffer SIZE with _ | o
      · rw [hm] at hf
        cases hf
      · rw [hm] at hf
        have hfo : f = sampleRate / (o : ℚ) := by
          simpa using hf.symm
        have hm2 : ((List.range' 1 (SIZE / 2 - 1)).foldl
            (PitchDetector.scanStep buffer SIZE) (none, 0, 1)).1 = some o := by
          unfold PitchDetector.findBestOffset at hm
          exact hm
        have hmem := foldl_scanStep_mem buffer SIZE (List.range' 1 (SIZE / 2 - 1))
          (none, 0, 1) o hm2
        rcases hmem with hbad | hmem
        · cases hbad
        · rw [List.mem_range'_1] at hmem
          exact ⟨o, rfl, hmem.1, by omega, hfo⟩
  · unfold PitchDetector.autoCorrelate
    split_ifs
    · rfl
    · rfl

/-- Witness for C9: the period-2 tone of length 8 at sample rate 1000
produces 500 Hz, and the theorem recovers its lag bestOffset = 2 with
1 ≤ 2 ≤ 8/2 - 1. -/
theorem frequency_from_positive_lag_witness :
    ∃ o : ℕ, PitchDetector.findBestOffset toneBuffer 8 = some o ∧
      1 ≤ o ∧ o ≤ 8 / 2 - 1 ∧ (500 : ℚ) = 1000 / (o : ℚ) :=
  (frequency_from_positive_lag 1000 toneBuffer 8).1 500
    (by rw [toneBuffer_autoCorrelate]; norm_num)

/-
The metronome timer (src/utils/metronome-timer.js).  The timer handle
returned by setTimeout is modelled by the absolute wall-clock time at
which the pending callback will run (timeoutAt = none when no callback is
pending, mirroring timeoutId = null).  expectedTime is null until the
first start or resume; arithmetic never reads it before it is assigned,
and the embedding uses getD 0 to stay total.  Wall-clock time (Date.now)
is an explicit parameter now of every operation that reads the clock.
-/

structure MetronomeTimer where
  bpm : ℚ
  beatsPerMeasure : ℕ
  intervalMs : ℚ
  expectedTime : Option ℚ
  timeoutAt : Option ℚ
  currentBeat : ℕ
  isRunning : Bool
deriving DecidableEq

/-- The constructor (metronome-timer.js, lines 6-15): intervalMs is
(60 / bpm) * 1000. -/
def mkMetronomeTimer (bpm : ℚ) (beatsPerMeasure : ℕ) : MetronomeTimer :=
  { bpm := bpm, beatsPerMeasure := beatsPerMeasure, intervalMs := 60 / bpm * 1000,
    expectedTime := none, timeoutAt := none, currentBeat := 1, isRunning := false }

namespace MetronomeTimer

/-- tick (lines 37-58), reduced to its scheduling effect: when running,
arm a timeout that will fire after max(0, intervalMs - (now - expectedTime))
milliseconds; otherwise do nothing.  The body that the armed timeout will
execute is the separate operation fire below. -/
def tick (now : ℚ) (t : MetronomeTimer) : MetronomeTimer :=
  if t.isRunning then
    { t with timeoutAt := some (now + max 0 (t.intervalMs - (now - t.expectedTime.getD 0))) }
  else t

/-- start (lines 20-32).  Returns the new state together with the list of
beat indices passed to onBeat during the call.  A running timer returns
unchanged and fires nothing. -/
def start (now : ℚ) (t : MetronomeTimer) : MetronomeTimer × List ℕ :=
  if t.isRunning then (t, [])
  else
    (tick now { t with isRunning := true, currentBeat := 1,
                       expectedTime := some (now + t.intervalMs) }, [1])

/-- The body of the setTimeout callback armed by tick (lines 40-57): the
drift now - expectedTime is computed by the JS code but never used;
the beat advances and wraps to 1 past beatsPerMeasure, onBeat fires with
the new beat, expectedTime advances by one interval, and tick re-arms the
next timeout. -/
def fire (now : ℚ) (t : MetronomeTimer) : MetronomeTimer × List ℕ :=
  if t.beatsPerMeasure < t.currentBeat + 1 then
    (tick now { t with currentBeat := 1,
                       expectedTime := some (t.expectedTime.getD 0 + t.intervalMs) }, [1])
  else
    (tick now { t with currentBeat := t.currentBeat + 1,
                       expectedTime := some (t.expectedTime.getD 0 + t.intervalMs) },
     [t.currentBeat + 1])

/-- stop (lines 63-70): clear the running flag, cancel the pending
timeout, reset the beat to 1. -/
def stop (t : MetronomeTimer) : MetronomeTimer :=
  { t with isRunning := false, timeoutAt := none, currentBeat := 1 }

/-- updateBPM (lines 75-83): store the new tempo and interval with no
bounds check of any kind; when running, re-anchor expectedTime to
now + the new interval.  The pending timeout is not re-armed. -/
def updateBPM (now newBpm : ℚ) (t : MetronomeTimer) : MetronomeTimer :=
  if t.isRunning then
    { t with bpm := newBpm, intervalMs := 60 / newBpm * 1000,
             expectedTime := some (now + 60 / newBpm * 1000) }
  else { t with bpm := newBpm, intervalMs := 60 / newBpm * 1000 }

/-- updateTimeSignature (lines 88-97): store the new cycle length and
reset the beat to 1; when running, stop and start again (which fires
beat 1). -/
def updateTimeSignature (now : ℚ) (beatsPerMeasure : ℕ) (t : MetronomeTimer) :
    MetronomeTimer × List ℕ :=
  if t.isRunning then
    start now (stop { t with beatsPerMeasure := beatsPerMeasure, currentBeat := 1 })
  else ({ t with beatsPerMeasure := beatsPerMeasure, currentBeat := 1 }, [])

/-- pause (lines 102-108): like stop but the beat index is preserved. -/
def pause (t : MetronomeTimer) : MetronomeTimer :=
  { t with isRunning := false, timeoutAt := none }

/-- resume (lines 113-119): a no-op when already running; otherwise
re-anchor expectedTime to now + intervalMs and re-arm the timeout without
firing a beat. -/
def resume (now : ℚ) (t : MetronomeTimer) : MetronomeTimer :=
  if t.isRunning then t
  else tick now { t with isRunning := true, expectedTime := some (now + t.intervalMs) }

end MetronomeTimer

/-- States reachable through any sequence of timer operations and timer
fires, starting from a constructor call.  beatsPerMeasure arguments are 4
or 8, the only values the owning component ever supplies
(visual-metronome.js getBeatsPerMeasure, and the spec data model).  A
fire step is allowed at any moment, a superset of the runs in which a
callback only fires while armed. -/
inductive ReachableTimer : MetronomeTimer → Prop where
  | init (bpm : ℚ) (bpc : ℕ) (h : bpc = 4 ∨ bpc = 8) :
      ReachableTimer (mkMetronomeTimer bpm bpc)
  | start (now : ℚ) {t : MetronomeTimer} (ht : ReachableTimer t) :
      ReachableTimer (MetronomeTimer.start now t).1
  | stop {t : MetronomeTimer} (ht : ReachableTimer t) : ReachableTimer t.stop
  | pause {t : MetronomeTimer} (ht : ReachableTimer t) : ReachableTimer t.pause
  | resume (now : ℚ) {t : MetronomeTimer} (ht : ReachableTimer t) :
      ReachableTimer (MetronomeTimer.resume now t)
  | updateBPM (now newBpm : ℚ) {t : MetronomeTimer} (ht : ReachableTimer t) :
      ReachableTimer (MetronomeTimer.updateBPM now newBpm t)
  | updateTimeSignature (now : ℚ) (bpc : ℕ) (h : bpc = 4 ∨ bpc = 8)
      {t : MetronomeTimer} (ht : ReachableTimer t) :
      ReachableTimer (MetronomeTimer.updateTimeSignature now bpc t).1
  | fire (now : ℚ) {t : MetronomeTimer} (ht : ReachableTimer t) :
      ReachableTimer (MetronomeTimer.fire now t).1

/-- Every reachable timer state has a cycle length of 4 or 8 and a beat
index inside [1, beatsPerMeasure]. -/
lemma reachableTimer_inv {t : MetronomeTimer} (h : ReachableTimer t) :
    (t.beatsPerMeasure = 4 ∨ t.beatsPerMeasure = 8) ∧
      1 ≤ t.currentBeat ∧ t.currentBeat ≤ t.beatsPerMeasure := by
  induction h with
  | init bpm bpc hb =>
      refine ⟨hb, by norm_num [mkMetronomeTimer], ?_⟩
      rcases hb with hb | hb <;> simp [mkMetronomeTimer, hb]
  | start now ht ih =>
      unfold MetronomeTimer.start MetronomeTimer.tick
      split_ifs <;> simp_all
      omega
  | stop ht ih =>
      unfold MetronomeTimer.stop
      simp_all
      omega
  | pause ht ih =>
      unfold MetronomeTimer.pause
      simp_all
  | resume now ht ih =>
      unfold MetronomeTimer.resume MetronomeTimer.tick
      split_ifs <;> simp_all
  | updateBPM now newBpm ht ih =>
      unfold MetronomeTimer.updateBPM
      split_ifs <;> simp_all
  | updateTimeSignature now bpc hb ht ih =>
      unfold MetronomeTimer.updateTimeSignature MetronomeTimer.start
        MetronomeTimer.stop MetronomeTimer.tick
      split_ifs <;> simp_all <;> omega
  | fire now ht ih =>
      unfold MetronomeTimer.fire MetronomeTimer.tick
      split_ifs <;> simp_all <;> omega

/-
Zero-jitter simulation: the timer is constructed at tempo 60, started at
wall-clock time 0, and every armed timeout fires exactly at its scheduled
time, with callbacks taking no time.  zjState bpc k is the state after
start and k timeout fires.
-/

/-- State of the tempo-60 timer after start at time 0 followed by k
timeout fires, each exactly at its scheduled time. -/
def zjState (bpc : ℕ) : ℕ → MetronomeTimer
  | 0 => (MetronomeTimer.start 0 (mkMetronomeTimer 60 bpc)).1
  | k + 1 =>
      (MetronomeTimer.fire ((zjState bpc k).timeoutAt.getD 0) (zjState bpc k)).1

/-- Wall-clock time at which the n-th beat (1-based) is emitted in the
zero-jitter run: beat 1 is emitted synchronously by start at time 0, and
beat n for n ≥ 2 is emitted by the timeout armed in state n - 2. -/
def zjBeatTime (bpc n : ℕ) : ℚ :=
  if n ≤ 1 then 0 else (zjState bpc (n - 2)).timeoutAt.getD 0

/-- Beat index emitted as the n-th beat (1-based) of the zero-jitter run:
start emits 1, and the beat emitted by fire number m is the currentBeat of
the state it produces. -/
def zjBeat (bpc n : ℕ) : ℕ :=
  if n ≤ 1 then 1 else (zjState bpc (n - 1)).currentBeat

/-- Closed form of the zero-jitter run at tempo 60 with 4 beats per
cycle: after k fires the anchor expectedTime is (k+1)*1000, the armed
timeout will fire at (k+2)*1000, and the beat shown is k % 4 + 1. -/
lemma zjState_four (k : ℕ) : zjState 4 k =
    { bpm := 60, beatsPerMeasure := 4, intervalMs := 1000,
      expectedTime := some (((k : ℚ) + 1) * 1000),
      timeoutAt := some (((k : ℚ) + 2) * 1000),
      currentBeat := k % 4 + 1, isRunning := true } := by
  induction k with
  | zero =>
      show (MetronomeTimer.start 0 (mkMetronomeTimer 60 4)).1 = _
      norm_num [MetronomeTimer.start, MetronomeTimer.tick, mkMetronomeTimer]
  | succ k ih =>
      show (MetronomeTimer.fire ((zjState 4 k).timeoutAt.getD 0) (zjState 4 k)).1 = _
      rw [ih]
      unfold MetronomeTimer.fire MetronomeTimer.tick
      have h2 : (0 : ℚ) ⊔ (1000 - (((k : ℚ) + 2) * 1000 - (((k : ℚ) + 1) * 1000 + 1000))) =
          1000 := by
        have he : ((k : ℚ) + 2) * 1000 - (((k : ℚ) + 1) * 1000 + 1000) = 0 := by ring
        rw [he, sub_zero]
        exact sup_eq_right.mpr (by norm_num)
      norm_num [h2]
      split_ifs with hbeat
      · dsimp only
        simp only [MetronomeTimer.mk.injEq, Option.some.injEq]
        exact ⟨trivial, trivial, trivial, by ring, by ring, by omega, trivial⟩
      · dsimp only
        simp only [MetronomeTimer.mk.injEq, Option.some.injEq]
        exact ⟨trivial, trivial, trivial, by ring, by ring, by omega, trivial⟩

/-- Claim C5: every timer state reachable under any sequence of start,
stop, pause, resume, updateBPM, updateTimeSignature and timer fires keeps
its beat index in [1, beatsPerMeasure]; and in the zero-jitter run with 4
beats per cycle the emitted beat sequence is 1,2,3,4,1,2,3,4,..., that is,
the n-th emitted beat is (n-1) % 4 + 1. -/
theorem beat_index_invariant_and_wrap :
    (∀ t : MetronomeTimer, ReachableTimer t →
      1 ≤ t.currentBeat ∧ t.currentBeat ≤ t.beatsPerMeasure) ∧
    (∀ n : ℕ, 1 ≤ n → zjBeat 4 n = (n - 1) % 4 + 1) := by
  constructor
  · intro t ht
    exact (reachableTimer_inv ht).2
  · intro n hn
    match n, hn with
    | 1, _ => rfl
    | (m + 2), _ =>
        show (zjState 4 (m + 1)).currentBeat = (m + 2 - 1) % 4 + 1
        rw [zjState_four]
        dsimp only
        omega

/-- Witness for C5: the freshly constructed timer is reachable and has
beat 1 inside [1, 4], and the sixth emitted beat of the zero-jitter
4-beat run is (6-1) % 4 + 1 = 2. -/
theorem beat_index_invariant_and_wrap_witness :
    (1 ≤ (mkMetronomeTimer 60 4).currentBeat ∧
      (mkMetronomeTimer 60 4).currentBeat ≤ (mkMetronomeTimer 60 4).beatsPerMeasure) ∧
    zjBeat 4 6 = (6 - 1) % 4 + 1 :=
  ⟨beat_index_invariant_and_wrap.1 (mkMetronomeTimer 60 4)
      (ReachableTimer.init 60 4 (Or.inl rfl)),
   beat_index_invariant_and_wrap.2 6 (by norm_num)⟩

/-- Claim C1 (code bug): at tempo 60 (interval 1000 ms) with zero jitter,
beat 1 fires at 0 ms as claimed, but beat 2 fires at 2000 ms and beat 3 at
3000 ms, not at 1000 ms and 2000 ms.  start sets expectedTime to
now + intervalMs and tick then waits max(0, intervalMs - (now - expectedTime))
= 2 * intervalMs, because expectedTime has already been advanced to the
next target when the delay is computed; every later beat stays one full
interval behind its expectedTime anchor. -/
theorem metronome_first_interval_doubled :
    zjBeatTime 4 1 = 0 ∧ zjBeatTime 4 2 = 2000 ∧ zjBeatTime 4 3 = 3000 := by
  refine ⟨rfl, ?_, ?_⟩
  · show (zjState 4 0).timeoutAt.getD 0 = 2000
    rw [zjState_four]
    norm_num
  · show (zjState 4 1).timeoutAt.getD 0 = 3000
    rw [zjState_four]
    norm_num

/-- Claim C10: start and resume on a timer that is already running return
with the state unchanged and fire no beat. -/
theorem start_resume_noop_when_running (now : ℚ) (t : MetronomeTimer)
    (h : t.isRunning = true) :
    MetronomeTimer.start now t = (t, []) ∧ MetronomeTimer.resume now t = t := by
  unfold MetronomeTimer.start MetronomeTimer.resume
  rw [if_pos h, if_pos h]
  exact ⟨rfl, rfl⟩

/-- Witness for C10: the started zero-jitter state is running, and start
and resume at time 5 leave it untouched. -/
theorem start_resume_noop_when_running_witness :
    MetronomeTimer.start 5 (zjState 4 0) = (zjState 4 0, []) ∧
      MetronomeTimer.resume 5 (zjState 4 0) = zjState 4 0 :=
  start_resume_noop_when_running 5 (zjState 4 0) rfl

/-
The UI component owning the timer (src/components/visual-metronome.js),
restricted to the fields its tempo-change path touches: the displayed
bpm and the optional timer instance.
-/

structure VisualMetronome where
  bpm : ℚ
  timer : Option MetronomeTimer

/-- changeBpm (visual-metronome.js, lines 131-142): clamp bpm + delta
into [20, 150]; when the clamped value differs from the current bpm,
store it and forward it to the timer through updateBPM. -/
def VisualMetronome.changeBpm (now delta : ℚ) (c : VisualMetronome) : VisualMetronome :=
  if max 20 (min 150 (c.bpm + delta)) ≠ c.bpm then
    { bpm := max 20 (min 150 (c.bpm + delta)),
      timer := c.timer.map (MetronomeTimer.updateBPM now (max 20 (min 150 (c.bpm + delta)))) }
  else c

/-- Counterexample to claim C3 as stated: MetronomeTimer.updateBPM called
directly with tempo 200 stores 200, outside the fixed supported range
[20, 150]; the timer itself clamps nothing. -/
theorem updateBPM_unclamped :
    (MetronomeTimer.updateBPM 0 200 (mkMetronomeTimer 60 4)).bpm = 200 ∧
      ¬ (MetronomeTimer.updateBPM 0 200 (mkMetronomeTimer 60 4)).bpm ≤ 150 := by
  norm_num [MetronomeTimer.updateBPM, mkMetronomeTimer]

/-- Claim C3 (corrected): the clamping lives in the caller, not in the
timer.  For a component whose bpm is in [20, 150] and whose timer agrees
with it (bpm and intervalMs in sync, the invariant the component
maintains), changeBpm with any delta leaves the component bpm inside
[20, 150] and leaves a timer whose bpm equals the component bpm and whose
interval is 60 / bpm * 1000, so later beats are scheduled from the clamped
tempo. -/
theorem changeBpm_clamps_into_range (now delta b : ℚ) (t : MetronomeTimer)
    (hb1 : 20 ≤ b) (hb2 : b ≤ 150) (ht : t.bpm = b)
    (hi : t.intervalMs = 60 / b * 1000) :
    (20 ≤ (VisualMetronome.changeBpm now delta ⟨b, some t⟩).bpm ∧
      (VisualMetronome.changeBpm now delta ⟨b, some t⟩).bpm ≤ 150) ∧
    ∃ t2 : MetronomeTimer,
      (VisualMetronome.changeBpm now delta ⟨b, some t⟩).timer = some t2 ∧
      t2.bpm = (VisualMetronome.changeBpm now delta ⟨b, some t⟩).bpm ∧
      t2.intervalMs = 60 / (VisualMetronome.changeBpm now delta ⟨b, some t⟩).bpm * 1000 := by
  unfold VisualMetronome.changeBpm
  split_ifs with h
  · refine ⟨⟨le_max_left _ _, max_le (by norm_num) (min_le_left _ _)⟩,
      MetronomeTimer.updateBPM now (max 20 (min 150 (b + delta))) t, ?_, ?_, ?_⟩
    · rfl
    · unfold MetronomeTimer.updateBPM
      split_ifs <;> rfl
    · unfold MetronomeTimer.updateBPM
      split_ifs <;> rfl
  · exact ⟨⟨hb1, hb2⟩, t, rfl, ht, hi⟩

/-- Witness for C3: a component at bpm 149 with a matching timer pushed up
by 10 clamps to 150 and propagates 150 to the timer. -/
theorem changeBpm_clamps_into_range_witness :
    (20 ≤ (VisualMetronome.changeBpm 0 10 ⟨149, some (mkMetronomeTimer 149 4)⟩).bpm ∧
      (VisualMetronome.changeBpm 0 10 ⟨149, some (mkMetronomeTimer 149 4)⟩).bpm ≤ 150) ∧
    ∃ t2 : MetronomeTimer,
      (VisualMetronome.changeBpm 0 10 ⟨149, some (mkMetronomeTimer 149 4)⟩).timer = some t2 ∧
      t2.bpm = (VisualMetronome.changeBpm 0 10 ⟨149, some (mkMetronomeTimer 149 4)⟩).bpm ∧
      t2.intervalMs =
        60 / (VisualMetronome.changeBpm 0 10 ⟨149, some (mkMetronomeTimer 149 4)⟩).bpm * 1000 :=
  changeBpm_clamps_into_range 0 10 149 (mkMetronomeTimer 149 4)
    (by norm_num) (by norm_num) rfl rfl

/-
The capture and analysis pipeline (src/audio/audio-processor.js).  Node
and resource handles (audio context, analyser, microphone source, gain
node, pitch detector, animation-frame handle, media stream) are modelled
as presence flags; whether a handle is held is all that the verified
claims depend on.  The constructor (lines 7-19) starts with every handle
absent, monitoring disabled, no smoothed frequency, and
smoothingFactor = 0.3.
-/

structure AudioProcessor where
  audioContext : Bool
  analyser : Bool
  microphone : Bool
  gainNode : Bool
  pitchDetector : Bool
  animationFrame : Bool
  stream : Bool
  monitoringEnabled : Bool
  smoothedFrequency : Option ℚ
  smoothingFactor : ℚ

/-- stop (audio-processor.js, lines 136-173): cancel the animation loop,
disconnect and drop the gain node, microphone and analyser, stop and drop
the stream, close and drop the audio context, then reset smoothedFrequency
and monitoringEnabled.  Every step is guarded by a null check, so it is
safe on a processor that was never started; pitchDetector and
smoothingFactor are left as they are. -/
def AudioProcessor.stop (p : AudioProcessor) : AudioProcessor :=
  { p with animationFrame := false, gainNode := false, microphone := false,
           analyser := false, stream := false, audioContext := false,
           smoothedFrequency := none, monitoringEnabled := false }

/-- One smoothing step of the analysis loop (audio-processor.js, lines
86-104), taking the frequency reported by detectPitch (none models null;
detectPitch never returns 0, so JS truthiness of the frequency coincides
with non-null): with no prior smoothed value the new frequency is taken
as is, otherwise the exponential moving average
smoothed * (1 - smoothingFactor) + frequency * smoothingFactor is stored,
and the published value is returned alongside the new state; a null
frequency resets the smoothed value and publishes null. -/
def AudioProcessor.smoothStep (p : AudioProcessor) (frequency : Option ℚ) :
    AudioProcessor × Option ℚ :=
  match frequency with
  | some f =>
      match p.smoothedFrequency with
      | none => ({ p with smoothedFrequency := some f }, some f)
      | some s =>
          let sm := s * (1 - p.smoothingFactor) + f * p.smoothingFactor
          ({ p with smoothedFrequency := some sm }, some sm)
  | none => ({ p with smoothedFrequency := none }, none)

/-- Claim C6: after a reset (a tick that published none, clearing the
smoothed value) the next update with x publishes exactly x; and when the
stored smoothed value already equals x, an update with x leaves the
smoothed value at x and publishes x, since x*(1-a) + x*a = x exactly. -/
theorem smoothing_identity (p : AudioProcessor) (x : ℚ) :
    (AudioProcessor.smoothStep (AudioProcessor.smoothStep p none).1 (some x)).2 = some x ∧
    (p.smoothedFrequency = some x →
      (AudioProcessor.smoothStep p (some x)).1.smoothedFrequency = some x ∧
        (AudioProcessor.smoothStep p (some x)).2 = some x) := by
  constructor
  · rfl
  · intro h
    unfold AudioProcessor.smoothStep
    rw [h]
    have hx : x * (1 - p.smoothingFactor) + x * p.smoothingFactor = x := by ring
    simp [hx]

/-- Witness for C6: a processor holding smoothed value 440 keeps 440 after
an update with 440. -/
def sampleProcessor : AudioProcessor :=
  { audioContext := true, analyser := true, microphone := true, gainNode := true,
    pitchDetector := true, animationFrame := true, stream := true,
    monitoringEnabled := false, smoothedFrequency := some 440, smoothingFactor := 3/10 }

/-- Witness for C6, applying the identity at the concrete processor state
sampleProcessor with x = 440. -/
theorem smoothing_identity_witness :
    (AudioProcessor.smoothStep sampleProcessor (some 440)).1.smoothedFrequency = some 440 ∧
      (AudioProcessor.smoothStep sampleProcessor (some 440)).2 = some 440 :=
  (smoothing_identity sampleProcessor 440).2 rfl

/-- Claim C8: stop is idempotent on both subsystems: a second stop leaves
the state produced by the first stop unchanged, for every state, including
states in which the subsystem was never started (both operations are
total, so no error is raised). -/
theorem stop_twice_idempotent :
    (∀ p : AudioProcessor, p.stop.stop = p.stop) ∧
    (∀ t : MetronomeTimer, t.stop.stop = t.stop) :=
  ⟨fun _ => rfl, fun _ => rfl⟩
